import Mathlib

/-!
Shallow embedding of `ddtrace/contrib/elasticsearch/patch.py`:
the elasticsearch auto-instrumentation shim (URL/param parser, request
interceptor, patch controller), with theorems checking the module
specification against the code.

Python dynamic values are modelled by `PyVal`; Python exceptions by `Exc`;
the fallible parts of the code return `Except Exc _`.
-/

namespace ES

/-- Python exception kinds that the embedded code can raise or catch. -/
inductive Exc where
  | transportError (statusCode : Option Int)
  | attributeError
  | typeError
  | valueError
  | serializationError (msg : String)
  | otherError
  deriving DecidableEq, Repr

/-- A fragment of Python's dynamic values, enough for the request/response
data this module touches. -/
inductive PyVal where
  | none
  | int (n : Int)
  | str (s : String)
  | bool (b : Bool)
  | tuple (xs : List PyVal)
  | dict (entries : List (String × PyVal))

/-- Python truthiness (`if x:`) for the modelled values. -/
def pyTruthy : PyVal → Bool
  | .none => false
  | .int n => n != 0
  | .str s => s != ""
  | .bool b => b
  | .tuple xs => !xs.isEmpty
  | .dict es => !es.isEmpty

/-- Python `int(x)`: succeeds on ints, bools and numeric strings; raises
`TypeError`/`ValueError` otherwise. -/
def pyToInt : PyVal → Except Exc Int
  | .int n => .ok n
  | .bool b => .ok (if b then 1 else 0)
  | .str s =>
    match s.trim.toInt? with
    | some n => .ok n
    | Option.none => .error .valueError
  | _ => .error .typeError

/-- Python `str(x)` for the modelled values (used when tagging a legacy
status code onto the span). -/
def pyStr : PyVal → String
  | .none => "None"
  | .int n => toString n
  | .str s => s
  | .bool b => if b then "True" else "False"
  | .tuple _ => "<tuple>"
  | .dict _ => "<dict>"

/-- Association-list lookup by string key (Python `dict` read). -/
def lookupStr {α : Type} : List (String × α) → String → Option α
  | [], _ => Option.none
  | (k', v) :: rest, k => if k' == k then some v else lookupStr rest k

/-- Association-list update preserving insertion order (Python
`d[k] = v`): overwrite in place if the key exists, else append. -/
def assocSet {α : Type} : List (String × α) → String → α → List (String × α)
  | [], k, v => [(k, v)]
  | (k', v') :: rest, k, v =>
    if k' == k then (k, v) :: rest else (k', v') :: assocSet rest k v

/-- Python `data.get(key)`: returns the value, or `None` when the key is
absent; raises `AttributeError` when the receiver is not a dict. -/
def dictGet : PyVal → String → Except Exc PyVal
  | .dict es, k => .ok ((lookupStr es k).getD .none)
  | _, _ => .error .attributeError

/-- Python `s.split(sep)` for a single-character separator:
`"" ↦ [""]`, empty fields kept. -/
def splitChar (sep : Char) : List Char → List (List Char)
  | [] => [[]]
  | c :: rest =>
    let r := splitChar sep rest
    if c == sep then [] :: r
    else
      match r with
      | h :: t => (c :: h) :: t
      | [] => [[c]]

/-- The split `splitChar`, lifted to strings. -/
def strSplit (sep : Char) (s : String) : List String :=
  (splitChar sep s.data).map String.mk

/-- Hexadecimal digit value, if any. -/
def hexVal? (c : Char) : Option Nat :=
  if '0' ≤ c ∧ c ≤ '9' then some (c.toNat - '0'.toNat)
  else if 'a' ≤ c ∧ c ≤ 'f' then some (c.toNat - 'a'.toNat + 10)
  else if 'A' ≤ c ∧ c ≤ 'F' then some (c.toNat - 'A'.toNat + 10)
  else Option.none

/-- Modelled from the spec: `urldecode` (from `ddtrace.internal.compat`,
code not under `src/`) URL-decodes a value: each valid `%XX` escape becomes
the character with that code, malformed escapes pass through unchanged. -/
def percentDecodeList : List Char → List Char
  | [] => []
  | '%' :: h1 :: h2 :: rest =>
    match hexVal? h1, hexVal? h2 with
    | some a, some b => Char.ofNat (16 * a + b) :: percentDecodeList rest
    | _, _ => '%' :: percentDecodeList (h1 :: h2 :: rest)
  | c :: rest => c :: percentDecodeList rest

/-- The decoder `percentDecodeList`, lifted to strings. -/
def urldecode (s : String) : String :=
  String.mk (percentDecodeList s.data)

/-- UTF-8 byte sequence of a character (standard encoding formulas). -/
def utf8Bytes (c : Char) : List Nat :=
  let n := c.toNat
  if n < 0x80 then [n]
  else if n < 0x800 then [0xC0 + n / 64, 0x80 + n % 64]
  else if n < 0x10000 then [0xE0 + n / 4096, 0x80 + (n / 64) % 64, 0x80 + n % 64]
  else [0xF0 + n / 262144, 0x80 + (n / 4096) % 64, 0x80 + (n / 64) % 64, 0x80 + n % 64]

/-- Uppercase hexadecimal digit for a value below 16. -/
def hexDigitUpper (n : Nat) : Char :=
  if n < 10 then Char.ofNat ('0'.toNat + n) else Char.ofNat ('A'.toNat + n - 10)

/-- Bytes a `quote_plus`-style encoder leaves unescaped: ASCII
alphanumerics and `_ . - ~`. -/
def isSafeByte (n : Nat) : Bool :=
  (0x30 ≤ n && n ≤ 0x39) || (0x41 ≤ n && n ≤ 0x5A) || (0x61 ≤ n && n ≤ 0x7A) ||
    n == 0x5F || n == 0x2E || n == 0x2D || n == 0x7E

/-- Percent-encode one byte: safe bytes pass through, space becomes `+`,
everything else becomes `%XX` with uppercase hex. -/
def encByte (n : Nat) : List Char :=
  if isSafeByte n then [Char.ofNat n]
  else if n == 0x20 then ['+']
  else ['%', hexDigitUpper (n / 16), hexDigitUpper (n % 16)]

/-- Modelled from the spec: the URL-encoding of one component, as done by
`urlencode` (from `ddtrace.internal.compat`, code not under `src/`):
`quote_plus` over the UTF-8 bytes of the string. -/
def quotePlus (s : String) : String :=
  String.mk ((s.data.map (fun c => (utf8Bytes c).map encByte)).flatten.flatten)

/-- Modelled from the spec: `urlencode` (from `ddtrace.internal.compat`,
code not under `src/`) encodes a parameter mapping as `k=v` pairs joined
with `&`, keys and values `quote_plus`-escaped. -/
def urlencode (params : List (String × String)) : String :=
  String.intercalate "&" (params.map (fun p => quotePlus p.1 ++ "=" ++ quotePlus p.2))

/-- Modelled from the spec: `urlparse` (from `ddtrace.internal.compat`,
code not under `src/`) splits a URL into `(path, query)`: the fragment
after the first `#` is dropped, then the part after the first `?` is the
query string and what precedes it is the path. -/
def urlparse (url : String) : String × String :=
  let noFrag := url.data.takeWhile (fun c => c != '#')
  let path := noFrag.takeWhile (fun c => c != '?')
  let rest := noFrag.dropWhile (fun c => c != '?')
  match rest with
  | [] => (String.mk path, "")
  | _ :: q => (String.mk path, String.mk q)

/-- The loop body of `_parse_elasticsearch8_urlparams` over the `&`-split
parameter list. For each entry `param`, `kv = param.split("=")`:
- `len(kv) > 1` destructures `k, v = kv`, which succeeds only for exactly
  two pieces (three or more raise `ValueError`); a non-empty key is stored
  with its URL-decoded value;
- `len(kv) == 1` executes `k = kv` — binding the *list* — and then
  `params[k] = ""`, which raises `TypeError` (unhashable list key). -/
def parseParamsList : List String → List (String × String) →
    Except Exc (List (String × String))
  | [], params => .ok params
  | param :: rest, params =>
    match strSplit '=' param with
    | [] => parseParamsList rest params
    | [_k] => .error .typeError
    | [k, v] =>
      parseParamsList rest (if k != "" then assocSet params k (urldecode v) else params)
    | _ :: _ :: _ :: _ => .error .valueError

/-- `_parse_elasticsearch8_urlparams(url)`: split the URL into path and
query, then decode the query string into a parameter mapping. -/
def parse_elasticsearch8_urlparams (url : String) :
    Except Exc (String × List (String × String)) :=
  let (path, query) := urlparse url
  if query == "" then .ok (path, [])
  else
    match parseParamsList (strSplit '&' query) [] with
    | .ok params => .ok (path, params)
    | .error e => .error e

/-- Python tuple comparison `a >= b` on three-component version tuples
(lexicographic). -/
def tupleGe (a b : Nat × Nat × Nat) : Bool :=
  Nat.blt b.1 a.1 ||
    (a.1 == b.1 && (Nat.blt b.2.1 a.2.1 || (a.2.1 == b.2.1 && Nat.ble b.2.2 a.2.2)))

/-- The version test `elasticsearch.__version__ >= (8, 0, 0)` from the
interceptor. -/
def versionGe8 (v : Nat × Nat × Nat) : Bool :=
  tupleGe v (8, 0, 0)

/-- A span, as this module observes it: externally owned, the interceptor
only sets tags, metrics and the error flag, and scoped acquisition marks
it finished on every exit path. -/
structure Span where
  name : String
  service : String
  spanType : String
  resource : String
  tags : List (String × String)
  metrics : List (String × Int)
  error : Nat
  measured : Bool
  sampled : Bool
  finished : Bool

/-- `span.set_tag(key, value)` (dict-backed: overwrite or append). -/
def Span.setTag (s : Span) (k v : String) : Span :=
  { s with tags := assocSet s.tags k v }

/-- `span.set_metric(key, value)` (dict-backed: overwrite or append). -/
def Span.setMetric (s : Span) (k : String) (v : Int) : Span :=
  { s with metrics := assocSet s.metrics k v }

/-- `span.set_tag(SPAN_MEASURED_KEY)`: mark the span as measured. -/
def Span.setMeasured (s : Span) : Span :=
  { s with measured := true }

/-- Scoped-acquisition exit: the `with` block closes the span. -/
def Span.finish (s : Span) : Span :=
  { s with finished := true }

/-- Per-integration configuration consumed by the interceptor
(`config.elasticsearch`): resolved service name, the trace-query-string
flag and the analytics sample rate (absent when analytics is off). -/
structure ESConfig where
  serviceName : String
  traceQueryString : Bool
  analyticsSampleRate : Option Int

/-- A Pin: the Tracing Association attached to a transport, with its
enabled flag. -/
structure Pin where
  enabled : Bool

/-- The transport instance the intercepted method runs on: its optional
Pin and the client's own serializers (`serializer.dumps` for pre-8.x,
`default_serializer.dumps(...).decode("utf-8")` for 8.x+, both of which
may raise). -/
structure Transport where
  pin : Option Pin
  serializerDumps : PyVal → Except Exc String
  defaultSerializerDumps : PyVal → Except Exc String

/-- Behavior of the original (unwrapped) `perform_request` on the
arguments of one call: a result, a transport-level error carrying an
optional `status_code`, or some other exception. -/
inductive CallResult where
  | ok (v : PyVal)
  | transportError (statusCode : Option Int)
  | otherError

/-- Calling the original method directly: its outcome as return value or
raised exception. -/
def callResultToExcept : CallResult → Except Exc PyVal
  | .ok v => .ok v
  | .transportError sc => .error (.transportError sc)
  | .otherError => .error .otherError

/-- Outcome of one intercepted call: the spans produced (finished) and the
value returned or exception raised. -/
structure TraceOutcome where
  spans : List Span
  result : Except Exc PyVal

/-- The span opened by `pin.tracer.trace("elasticsearch.query", ...)`. -/
def mkSpan (cfg : ESConfig) (sampled : Bool) : Span :=
  { name := "elasticsearch.query", service := cfg.serviceName,
    spanType := "elasticsearch", resource := "elasticsearch.query",
    tags := [], metrics := [], error := 0, measured := false,
    sampled := sampled, finished := false }

/-- Modelled from the spec: `quantize` (from `.quantize`, code not under
`src/`) is an opaque post-processing transform of the span's resource
name, leaving tags, metrics and the error flag alone. -/
def quantize (s : Span) : Span :=
  { s with resource :=
      ((lookupStr s.tags "elasticsearch.method").getD "") ++ " " ++
        ((lookupStr s.tags "elasticsearch.url").getD "") }

/-- The URL/params derivation of the interceptor: 8.x+ splits the URL via
the parser (which may raise); earlier versions take the URL as-is and read
the `params` keyword argument, defaulting to an empty mapping. -/
def urlAndParams (version : Nat × Nat × Nat) (url : String)
    (paramsKw : Option (List (String × String))) :
    Except Exc (String × List (String × String)) :=
  if versionGe8 version then parse_elasticsearch8_urlparams url
  else .ok (url, paramsKw.getD [])

/-- Body serialization through the client's own serializer, as selected by
version (8.x+: `default_serializer.dumps(...).decode("utf-8")`; earlier:
`serializer.dumps(...)`). -/
def serializeBody (version : Nat × Nat × Nat) (inst : Transport)
    (body : PyVal) : Except Exc String :=
  if versionGe8 version then inst.defaultSerializerDumps body
  else inst.serializerDumps body

/-- Pre-delegation phase of the traced branch: derive URL and params, set
method/url/params tags (plus the query-string tag when configured),
serialize and tag the body for GET/POST, set the analytics metric and
apply `quantize`. On an exception the partially tagged span is returned
alongside it (the `with` block still closes that span). -/
def prepareSpan (cfg : ESConfig) (version : Nat × Nat × Nat)
    (inst : Transport) (method url : String)
    (paramsKw : Option (List (String × String))) (body : PyVal)
    (span : Span) : Except (Exc × Span) Span :=
  match urlAndParams version url paramsKw with
  | .error e => .error (e, span)
  | .ok (url2, params) =>
    let encodedParams := urlencode params
    let span := span.setTag "elasticsearch.method" method
    let span := span.setTag "elasticsearch.url" url2
    let span := span.setTag "elasticsearch.params" encodedParams
    let span :=
      if cfg.traceQueryString then span.setTag "http.query.string" encodedParams
      else span
    let bodyStep : Except (Exc × Span) Span :=
      if method == "GET" || method == "POST" then
        match serializeBody version inst body with
        | .error e => .error (e, span)
        | .ok bs => .ok (span.setTag "elasticsearch.body" bs)
      else .ok span
    match bodyStep with
    | .error es => .error es
    | .ok span =>
      let span :=
        match cfg.analyticsSampleRate with
        | some r => span.setMetric "_dd1.sr.eausr" r
        | Option.none => span
      .ok (quantize span)

/-- The value tagged as HTTP status code on a transport error:
`getattr(e, "status_code", 500)`. -/
def statusCodeStr (sc : Option Int) : String :=
  toString (sc.getD 500)

/-- Legacy result-shape normalization: a 2-tuple is `(status, data)`,
anything else is bare `data`. -/
def resultShape (result : PyVal) : Option PyVal × PyVal :=
  match result with
  | .tuple [s, d] => (some s, d)
  | _ => (Option.none, result)

/-- The soft-fail `took` extraction: normalize the result shape, read
`data.get("took")`, and record the metric — 8.x+ whenever the value is not
`None`, earlier versions only when it is truthy. Every exception along the
way is swallowed; the `status` bound before the failure point is kept. -/
def tookStep (ge8 : Bool) (sp : Span) (result : PyVal) : Option PyVal × Span :=
  let (status, data) := resultShape result
  match dictGet data "took" with
  | .error _ => (status, sp)
  | .ok took =>
    if ge8 then
      match took with
      | .none => (status, sp)
      | _ =>
        match pyToInt took with
        | .ok n => (status, sp.setMetric "elasticsearch.took" n)
        | .error _ => (status, sp)
    else
      if pyTruthy took then
        match pyToInt took with
        | .ok n => (status, sp.setMetric "elasticsearch.took" n)
        | .error _ => (status, sp)
      else (status, sp)

/-- The post-delegation legacy status tag: `if status:` (truthiness), tag
`str(status)` as the HTTP status code. -/
def statusTagStep (status : Option PyVal) (sp : Span) : Span :=
  match status with
  | some sv => if pyTruthy sv then sp.setTag "http.status_code" (pyStr sv) else sp
  | Option.none => sp

/-- The wrapped `_perform_request(func, instance, args, kwargs)`:
passthrough when no Pin is attached or it is disabled; otherwise open a
span, mark it measured, short-circuit when not sampled, tag it
(`prepareSpan`), delegate, handle transport errors, extract `took`
(soft-fail) and the legacy status, and return the original result. The
span, when opened, is finished on every exit path. -/
def perform_request (cfg : ESConfig) (version : Nat × Nat × Nat)
    (inst : Transport) (func : CallResult) (sampled : Bool)
    (method url : String) (paramsKw : Option (List (String × String)))
    (body : PyVal) : TraceOutcome :=
  match inst.pin with
  | Option.none => ⟨[], callResultToExcept func⟩
  | some pin =>
    if !pin.enabled then ⟨[], callResultToExcept func⟩
    else
      let span := (mkSpan cfg sampled).setMeasured
      if !sampled then ⟨[span.finish], callResultToExcept func⟩
      else
        match prepareSpan cfg version inst method url paramsKw body span with
        | .error (e, sp) => ⟨[sp.finish], .error e⟩
        | .ok sp =>
          match func with
          | .transportError sc =>
            let sp := { sp.setTag "http.status_code" (statusCodeStr sc) with error := 1 }
            ⟨[sp.finish], .error (.transportError sc)⟩
          | .otherError => ⟨[sp.finish], .error .otherError⟩
          | .ok result =>
            let sd := tookStep (versionGe8 version) sp result
            let sp := statusTagStep sd.1 sd.2
            ⟨[sp.finish], .ok result⟩

/-- One library-variant module's patch-relevant state: the
`_datadog_patch` flag (default false) and the transport class's
`perform_request` attribute, possibly wrapped. -/
inductive TransportMethod where
  | original
  | wrapped (inner : TransportMethod)
  deriving DecidableEq

/-- The state `_patch`/`_unpatch` act on. -/
structure ESModule where
  datadog_patch : Bool
  performRequest : TransportMethod
  deriving DecidableEq

/-- `_patch(elasticsearch)`: no-op when the flag is already set; otherwise
set the flag and wrap the transport's `perform_request`. -/
def _patch (m : ESModule) : ESModule :=
  if m.datadog_patch then m
  else { datadog_patch := true, performRequest := .wrapped m.performRequest }

/-- The unwrap helper `_u`: remove one wrapper layer. -/
def unwrapOne : TransportMethod → TransportMethod
  | .wrapped inner => inner
  | .original => .original

/-- `_unpatch(elasticsearch)`: when the flag is set, clear it and unwrap
`perform_request`; otherwise no-op. -/
def _unpatch (m : ESModule) : ESModule :=
  if m.datadog_patch then
    { datadog_patch := false, performRequest := unwrapOne m.performRequest }
  else m

/-! Basic lemmas about the span operations and the association-list
tag/metric store. -/

theorem lookupStr_assocSet {α : Type} (l : List (String × α)) (k k' : String) (v : α) :
    lookupStr (assocSet l k v) k' = if k = k' then some v else lookupStr l k' := by
  induction l with
  | nil => simp [assocSet, lookupStr]
  | cons hd t ih =>
    obtain ⟨k0, v0⟩ := hd
    simp only [assocSet]
    by_cases hk : k0 = k
    · subst hk
      by_cases hk' : k0 = k' <;> simp [lookupStr, hk', beq_iff_eq]
    · simp only [beq_iff_eq, hk, if_false, lookupStr]
      by_cases hk' : k0 = k'
      · subst hk'
        have hkk' : ¬k = k0 := fun h => hk h.symm
        simp [hkk', beq_iff_eq]
      · simp [hk', beq_iff_eq, ih]

@[simp] theorem Span.setTag_tags (s : Span) (k v : String) :
    (s.setTag k v).tags = assocSet s.tags k v := rfl

@[simp] theorem Span.setTag_metrics (s : Span) (k v : String) :
    (s.setTag k v).metrics = s.metrics := rfl

@[simp] theorem Span.setTag_error (s : Span) (k v : String) :
    (s.setTag k v).error = s.error := rfl

@[simp] theorem Span.setMetric_tags (s : Span) (k : String) (v : Int) :
    (s.setMetric k v).tags = s.tags := rfl

@[simp] theorem Span.setMetric_metrics (s : Span) (k : String) (v : Int) :
    (s.setMetric k v).metrics = assocSet s.metrics k v := rfl

@[simp] theorem Span.setMetric_error (s : Span) (k : String) (v : Int) :
    (s.setMetric k v).error = s.error := rfl

@[simp] theorem Span.finish_tags (s : Span) : s.finish.tags = s.tags := rfl

@[simp] theorem Span.finish_metrics (s : Span) : s.finish.metrics = s.metrics := rfl

@[simp] theorem Span.finish_error (s : Span) : s.finish.error = s.error := rfl

@[simp] theorem Span.finish_finished (s : Span) : s.finish.finished = true := rfl

@[simp] theorem quantize_tags (s : Span) : (quantize s).tags = s.tags := rfl

@[simp] theorem quantize_metrics (s : Span) : (quantize s).metrics = s.metrics := rfl

@[simp] theorem quantize_error (s : Span) : (quantize s).error = s.error := rfl

theorem tookStep_snd_tags (g : Bool) (sp : Span) (r : PyVal) :
    (tookStep g sp r).2.tags = sp.tags := by
  unfold tookStep
  repeat' split
  all_goals rfl

theorem tookStep_snd_error (g : Bool) (sp : Span) (r : PyVal) :
    (tookStep g sp r).2.error = sp.error := by
  unfold tookStep
  repeat' split
  all_goals rfl

theorem statusTagStep_metrics (st : Option PyVal) (sp : Span) :
    (statusTagStep st sp).metrics = sp.metrics := by
  unfold statusTagStep
  repeat' split
  all_goals rfl

theorem statusTagStep_lookup_ne (st : Option PyVal) (sp : Span) (k : String)
    (h : k ≠ "http.status_code") :
    lookupStr (statusTagStep st sp).tags k = lookupStr sp.tags k := by
  have hne : ¬("http.status_code" = k) := fun h' => h h'.symm
  unfold statusTagStep
  repeat' split
  all_goals simp [lookupStr_assocSet, hne]

/-! Lemmas about the patch controller. -/

theorem _patch_idem (m : ESModule) : _patch (_patch m) = _patch m := by
  by_cases h : m.datadog_patch <;> simp [_patch, h]

theorem _patch_iterate (m : ESModule) (n : Nat) (hn : 1 ≤ n) :
    _patch^[n] m = _patch m := by
  induction n with
  | zero => exact absurd hn (by simp)
  | succ k ih =>
    cases Nat.eq_zero_or_pos k with
    | inl h0 => subst h0; simp
    | inr hk => rw [Function.iterate_succ_apply', ih hk, _patch_idem]

theorem _unpatch_patch (m : ESModule) (hm : m.datadog_patch = false) :
    _unpatch (_patch m) = m := by
  cases m with
  | mk flag pr =>
    simp only at hm
    subst hm
    simp [_patch, _unpatch, unwrapOne]

/-! Lemma used for the parser totality claim: a `&`-separated entry that
splits at `=` into three or more pieces makes the parse loop raise. -/

theorem parseParamsList_error_of_multi_eq :
    ∀ (L : List String) (params : List (String × String)),
      (∃ p ∈ L, 3 ≤ (strSplit '=' p).length) →
      ∃ e, parseParamsList L params = .error e := by
  intro L
  induction L with
  | nil =>
    intro params h
    simp at h
  | cons a L ih =>
    intro params h
    rcases h with ⟨p, hp, hlen⟩
    rcases List.mem_cons.mp hp with rfl | hpL
    · rcases hkv : strSplit '=' p with _ | ⟨k, _ | ⟨v, _ | _⟩⟩
      · rw [hkv] at hlen; simp at hlen
      · rw [hkv] at hlen; simp at hlen
      · rw [hkv] at hlen; simp at hlen
      · exact ⟨.valueError, by simp [parseParamsList, hkv]⟩
    · rcases hkv : strSplit '=' a with _ | ⟨k, _ | ⟨v, _ | _⟩⟩
      · simpa [parseParamsList, hkv] using ih params ⟨p, hpL, hlen⟩
      · exact ⟨.typeError, by simp [parseParamsList, hkv]⟩
      · obtain ⟨e, he⟩ :=
          ih (if k != "" then assocSet params k (urldecode v) else params) ⟨p, hpL, hlen⟩
        refine ⟨e, ?_⟩
        simp only [parseParamsList, hkv]
        exact he
      · exact ⟨.valueError, by simp [parseParamsList, hkv]⟩

/-! Reduction lemmas for the traced branch of `perform_request`. -/

theorem perform_request_ok_case (cfg : ESConfig) (version : Nat × Nat × Nat)
    (inst : Transport) (func : CallResult) (method url : String)
    (paramsKw : Option (List (String × String))) (body : PyVal)
    (p : Pin) (sp : Span) (r : PyVal)
    (hpin : inst.pin = some p) (hen : p.enabled = true)
    (hprep : prepareSpan cfg version inst method url paramsKw body
        ((mkSpan cfg true).setMeasured) = .ok sp)
    (hfunc : func = .ok r) :
    perform_request cfg version inst func true method url paramsKw body =
      ⟨[(statusTagStep (tookStep (versionGe8 version) sp r).1
          (tookStep (versionGe8 version) sp r).2).finish], .ok r⟩ := by
  subst hfunc
  unfold perform_request
  simp [hpin, hen, hprep]

theorem perform_request_terr_case (cfg : ESConfig) (version : Nat × Nat × Nat)
    (inst : Transport) (func : CallResult) (method url : String)
    (paramsKw : Option (List (String × String))) (body : PyVal)
    (p : Pin) (sp : Span) (sc : Option Int)
    (hpin : inst.pin = some p) (hen : p.enabled = true)
    (hprep : prepareSpan cfg version inst method url paramsKw body
        ((mkSpan cfg true).setMeasured) = .ok sp)
    (hfunc : func = .transportError sc) :
    perform_request cfg version inst func true method url paramsKw body =
      ⟨[Span.finish
          { sp.setTag "http.status_code" (statusCodeStr sc) with error := 1 }],
        .error (.transportError sc)⟩ := by
  subst hfunc
  unfold perform_request
  simp [hpin, hen, hprep]

theorem perform_request_prep_error (cfg : ESConfig) (version : Nat × Nat × Nat)
    (inst : Transport) (func : CallResult) (method url : String)
    (paramsKw : Option (List (String × String))) (body : PyVal)
    (p : Pin) (e : Exc) (sp : Span)
    (hpin : inst.pin = some p) (hen : p.enabled = true)
    (hprep : prepareSpan cfg version inst method url paramsKw body
        ((mkSpan cfg true).setMeasured) = .error (e, sp)) :
    perform_request cfg version inst func true method url paramsKw body =
      ⟨[sp.finish], .error e⟩ := by
  unfold perform_request
  simp [hpin, hen, hprep]

theorem tookStep_of_int (g : Bool) (sp : Span) (r : PyVal) (status : Option PyVal)
    (data : PyVal) (t : Int)
    (hshape : resultShape r = (status, data))
    (htook : dictGet data "took" = .ok (.int t)) :
    tookStep g sp r =
      (status,
        if g then sp.setMetric "elasticsearch.took" t
        else if t = 0 then sp else sp.setMetric "elasticsearch.took" t) := by
  unfold tookStep
  rw [hshape]
  simp only [htook]
  cases g with
  | true => simp [pyToInt]
  | false =>
    by_cases ht : t = 0
    · subst ht; simp [pyTruthy]
    · simp [pyTruthy, pyToInt, ht]

theorem prepareSpan_lookups (cfg : ESConfig) (version : Nat × Nat × Nat)
    (inst : Transport) (method url : String)
    (paramsKw : Option (List (String × String))) (body : PyVal) (span : Span)
    (url2 : String) (params : List (String × String)) (bs : String)
    (hup : urlAndParams version url paramsKw = .ok (url2, params))
    (hser : serializeBody version inst body = .ok bs) :
    ∃ sp, prepareSpan cfg version inst method url paramsKw body span = .ok sp ∧
      lookupStr sp.tags "elasticsearch.method" = some method ∧
      lookupStr sp.tags "elasticsearch.url" = some url2 ∧
      lookupStr sp.tags "elasticsearch.body" =
        (if method = "GET" ∨ method = "POST" then some bs
          else lookupStr span.tags "elasticsearch.body") := by
  have h1 : ¬("elasticsearch.url" = "elasticsearch.method") := by decide
  have h2 : ¬("elasticsearch.params" = "elasticsearch.method") := by decide
  have h3 : ¬("http.query.string" = "elasticsearch.method") := by decide
  have h4 : ¬("elasticsearch.body" = "elasticsearch.method") := by decide
  have h5 : ¬("elasticsearch.params" = "elasticsearch.url") := by decide
  have h6 : ¬("http.query.string" = "elasticsearch.url") := by decide
  have h7 : ¬("elasticsearch.body" = "elasticsearch.url") := by decide
  have h8 : ¬("elasticsearch.method" = "elasticsearch.body") := by decide
  have h9 : ¬("elasticsearch.url" = "elasticsearch.body") := by decide
  have h10 : ¬("elasticsearch.params" = "elasticsearch.body") := by decide
  have h11 : ¬("http.query.string" = "elasticsearch.body") := by decide
  unfold prepareSpan
  rw [hup]
  by_cases hm : (method == "GET" || method == "POST") = true
  · have hm' : method = "GET" ∨ method = "POST" := by simpa using hm
    simp only [hm, if_true, hser]
    cases hA : cfg.analyticsSampleRate <;>
      by_cases ht : cfg.traceQueryString <;>
        exact ⟨_, rfl, by
          simp [ht, lookupStr_assocSet, h1, h2, h3, h4, h5, h6, h7, h8, h9, h10, h11, hm']⟩
  · have hm' : ¬(method = "GET" ∨ method = "POST") := by simpa using hm
    simp only [hm, if_false, Bool.false_eq_true]
    cases hA : cfg.analyticsSampleRate <;>
      by_cases ht : cfg.traceQueryString <;>
        exact ⟨_, rfl, by
          simp [ht, lookupStr_assocSet, h1, h2, h3, h4, h5, h6, h7, h8, h9, h10, h11, hm']⟩

theorem prepareSpan_serialize_error (cfg : ESConfig) (version : Nat × Nat × Nat)
    (inst : Transport) (method url : String)
    (paramsKw : Option (List (String × String))) (body : PyVal) (span : Span)
    (url2 : String) (params : List (String × String)) (e : Exc)
    (hup : urlAndParams version url paramsKw = .ok (url2, params))
    (hm : method = "GET" ∨ method = "POST")
    (hser : serializeBody version inst body = .error e) :
    ∃ sp, prepareSpan cfg version inst method url paramsKw body span = .error (e, sp) := by
  have hm' : (method == "GET" || method == "POST") = true := by
    rcases hm with h | h <;> simp [h]
  unfold prepareSpan
  rw [hup]
  simp only [hm', if_true, hser]
  exact ⟨_, rfl⟩

/-- C1: for every intercepted call on a transport with no Tracing
Association (Pin) attached, or whose association is disabled, the wrapped
`_perform_request` returns exactly the outcome of invoking the original
method on the same arguments, produces zero spans, and has no other
effect: the two functions are equal on these inputs. -/
theorem perform_request_passthrough (cfg : ESConfig) (version : Nat × Nat × Nat)
    (inst : Transport) (func : CallResult) (sampled : Bool) (method url : String)
    (paramsKw : Option (List (String × String))) (body : PyVal)
    (h : inst.pin = Option.none ∨ ∃ p, inst.pin = some p ∧ p.enabled = false) :
    perform_request cfg version inst func sampled method url paramsKw body =
      ⟨[], callResultToExcept func⟩ := by
  rcases h with h | ⟨p, hp, he⟩
  · simp [perform_request, h]
  · simp [perform_request, hp, he]

/-- Witness for C1, at a concrete call on a transport with a disabled
association. -/
theorem perform_request_passthrough_witness :
    perform_request ⟨"elasticsearch", false, Option.none⟩ (8, 0, 0)
        ⟨some ⟨false⟩, fun _ => .ok "", fun _ => .ok ""⟩ (.ok (.int 1)) true
        "GET" "/idx" Option.none .none =
      ⟨[], callResultToExcept (.ok (.int 1))⟩ :=
  perform_request_passthrough _ _ _ _ _ _ _ _ _ (Or.inr ⟨⟨false⟩, rfl, rfl⟩)

/-- C4: the patch controller is idempotent per variant module: `_patch`
twice equals `_patch` once, `_unpatch` on an unpatched module changes
nothing, `_patch` iterated `n ≥ 1` times equals one `_patch`, and
`_unpatch` after any number of `_patch` calls restores the original state
(unwrapped method, flag cleared). -/
theorem patch_controller_idempotent (m : ESModule) (n : Nat)
    (hm : m.datadog_patch = false) (hn : 1 ≤ n) :
    (∀ m' : ESModule, _patch (_patch m') = _patch m') ∧
    (∀ m' : ESModule, m'.datadog_patch = false → _unpatch m' = m') ∧
    _patch^[n] m = _patch m ∧
    _unpatch (_patch^[n] m) = m := by
  refine ⟨fun m' => _patch_idem m', fun m' hm' => ?_, _patch_iterate m n hn, ?_⟩
  · simp [_unpatch, hm']
  · rw [_patch_iterate m n hn]
    exact _unpatch_patch m hm

/-- Witness for C4, on the default-state module and two `patch` calls. -/
theorem patch_controller_idempotent_witness :
    (∀ m' : ESModule, _patch (_patch m') = _patch m') ∧
    (∀ m' : ESModule, m'.datadog_patch = false → _unpatch m' = m') ∧
    _patch^[2] (⟨false, .original⟩ : ESModule) = _patch ⟨false, .original⟩ ∧
    _unpatch (_patch^[2] (⟨false, .original⟩ : ESModule)) = ⟨false, .original⟩ :=
  patch_controller_idempotent ⟨false, .original⟩ 2 rfl (by decide)

/-- C5: for the URL with query string `sort=name%3Adesc&size=100`, the
8.x parser yields the mapping sort ↦ name:desc, size ↦ 100, and
URL-encoding that mapping back reproduces the query string exactly. -/
theorem parser_roundtrip_sort_size :
    parse_elasticsearch8_urlparams "/idx?sort=name%3Adesc&size=100" =
      .ok ("/idx", [("sort", "name:desc"), ("size", "100")]) ∧
    urlencode [("sort", "name:desc"), ("size", "100")] = "sort=name%3Adesc&size=100" :=
  ⟨rfl, rfl⟩

/-- C6 evidence: on a URL whose query string is a bare parameter with no
`=`, the parser raises `TypeError` (the `len(kv) == 1` branch binds the
whole one-element list as the dict key) instead of mapping the name to an
empty string as the branch's own `params[k] = ""` intends. -/
theorem bare_param_raises_type_error :
    parse_elasticsearch8_urlparams "/idx?pretty" = .error .typeError := rfl

/-- C10: for every URL whose query string contains a parameter with two
or more `=` characters (a `=`-split of three or more pieces), the 8.x
parser raises instead of returning a mapping. -/
theorem parser_raises_on_multi_eq_param (url : String)
    (h : ∃ p ∈ strSplit '&' (urlparse url).2, 3 ≤ (strSplit '=' p).length) :
    ∃ e, parse_elasticsearch8_urlparams url = .error e := by
  unfold parse_elasticsearch8_urlparams
  rcases hu : urlparse url with ⟨path, query⟩
  rw [hu] at h
  by_cases hq : query = ""
  · subst hq
    rcases h with ⟨p, hp, hlen⟩
    have hp' : p = "" := by simpa [strSplit, splitChar] using hp
    rw [hp'] at hlen
    simp [strSplit, splitChar] at hlen
  · obtain ⟨e, he⟩ := parseParamsList_error_of_multi_eq (strSplit '&' query) [] h
    exact ⟨e, by simp [hq, he]⟩

/-- Witness for C10, at the URL `/idx?a=b=c`. -/
theorem parser_raises_on_multi_eq_param_witness :
    ∃ e, parse_elasticsearch8_urlparams "/idx?a=b=c" = .error e :=
  parser_raises_on_multi_eq_param "/idx?a=b=c" ⟨"a=b=c", by decide, by decide⟩

/-! Concrete fixtures used by the witnesses of the interceptor claims. -/

/-- A concrete configuration: service `svc`, query-string tracing off,
analytics off. -/
def wCfg : ESConfig := ⟨"svc", false, Option.none⟩

/-- A concrete transport with an enabled Pin and serializers that both
return the serialized empty JSON object. -/
def wTransport : Transport :=
  ⟨some ⟨true⟩, fun _ => .ok "\x7b\x7d", fun _ => .ok "\x7b\x7d"⟩

/-- A concrete transport with an enabled Pin whose serializers raise. -/
def wTransportFail : Transport :=
  ⟨some ⟨true⟩, fun _ => .error (.serializationError "boom"),
    fun _ => .error (.serializationError "boom")⟩

/-- The span `prepareSpan` produces for a sampled `PUT /idx` call under
`wCfg` and `wTransport`. -/
def wSpanPUT : Span :=
  ⟨"elasticsearch.query", "svc", "elasticsearch", "PUT /idx",
    [("elasticsearch.method", "PUT"), ("elasticsearch.url", "/idx"),
      ("elasticsearch.params", "")],
    [], 0, true, true, false⟩

/-- C2: with tracing enabled and the span sampled, when the delegated
original call raises a transport-level error the span ends with
`error = 1` and an HTTP status-code tag — the error's `status_code` when
present, `500` otherwise — and the very same exception propagates
unchanged to the caller. -/
theorem transport_error_tagged_and_reraised (cfg : ESConfig)
    (version : Nat × Nat × Nat) (inst : Transport) (func : CallResult)
    (method url : String) (paramsKw : Option (List (String × String)))
    (body : PyVal) (p : Pin) (sp : Span) (sc : Option Int)
    (hpin : inst.pin = some p) (hen : p.enabled = true)
    (hprep : prepareSpan cfg version inst method url paramsKw body
        ((mkSpan cfg true).setMeasured) = .ok sp)
    (hfunc : func = .transportError sc) :
    (perform_request cfg version inst func true method url paramsKw body).result =
      .error (.transportError sc) ∧
    ∃ s, (perform_request cfg version inst func true method url paramsKw body).spans =
        [s] ∧
      s.error = 1 ∧
      lookupStr s.tags "http.status_code" = some (statusCodeStr sc) ∧
      (∀ n : Int, sc = some n →
        lookupStr s.tags "http.status_code" = some (toString n)) ∧
      (sc = Option.none → lookupStr s.tags "http.status_code" = some "500") := by
  rw [perform_request_terr_case cfg version inst func method url paramsKw body
    p sp sc hpin hen hprep hfunc]
  refine ⟨rfl, _, rfl, rfl, ?_, ?_, ?_⟩
  · simp [lookupStr_assocSet]
  · intro n hn
    subst hn
    simp [lookupStr_assocSet, statusCodeStr]
  · intro hn
    subst hn
    simp [lookupStr_assocSet, statusCodeStr]
    rfl

/-- Witness for C2, at a concrete sampled `PUT /idx` call whose delegate
raises a transport error with `status_code = 404`. -/
theorem transport_error_tagged_and_reraised_witness :
    (perform_request wCfg (8, 0, 0) wTransport (.transportError (some 404)) true
        "PUT" "/idx" Option.none .none).result = .error (.transportError (some 404)) ∧
    ∃ s, (perform_request wCfg (8, 0, 0) wTransport (.transportError (some 404)) true
        "PUT" "/idx" Option.none .none).spans = [s] ∧
      s.error = 1 ∧
      lookupStr s.tags "http.status_code" = some (statusCodeStr (some 404)) ∧
      (∀ n : Int, (some 404 : Option Int) = some n →
        lookupStr s.tags "http.status_code" = some (toString n)) ∧
      ((some 404 : Option Int) = Option.none →
        lookupStr s.tags "http.status_code" = some "500") :=
  transport_error_tagged_and_reraised wCfg (8, 0, 0) wTransport
    (.transportError (some 404)) "PUT" "/idx" Option.none .none ⟨true⟩ wSpanPUT
    (some 404) rfl rfl rfl rfl

/-- C3: on a successful traced call whose result body holds an integer
`took` field: under an 8.x+ client the metric is recorded for every value
(zero included), while under a pre-8.x client it is recorded only for a
truthy (non-zero) value, so `took == 0` records nothing. -/
theorem took_metric_version_divergence (cfg : ESConfig)
    (version : Nat × Nat × Nat) (inst : Transport) (func : CallResult)
    (method url : String) (paramsKw : Option (List (String × String)))
    (body : PyVal) (p : Pin) (sp : Span) (status : Option PyVal)
    (data : PyVal) (t : Int) (r : PyVal)
    (hpin : inst.pin = some p) (hen : p.enabled = true)
    (hprep : prepareSpan cfg version inst method url paramsKw body
        ((mkSpan cfg true).setMeasured) = .ok sp)
    (hfunc : func = .ok r)
    (hshape : resultShape r = (status, data))
    (htook : dictGet data "took" = .ok (.int t)) :
    ∃ s, (perform_request cfg version inst func true method url paramsKw body).spans =
        [s] ∧
      (versionGe8 version = true →
        s.metrics = assocSet sp.metrics "elasticsearch.took" t ∧
        lookupStr s.metrics "elasticsearch.took" = some t) ∧
      (versionGe8 version = false → t = 0 → s.metrics = sp.metrics) ∧
      (versionGe8 version = false → t ≠ 0 →
        s.metrics = assocSet sp.metrics "elasticsearch.took" t) := by
  rw [perform_request_ok_case cfg version inst func method url paramsKw body
    p sp r hpin hen hprep hfunc]
  rw [tookStep_of_int (versionGe8 version) sp r status data t hshape htook]
  refine ⟨_, rfl, ?_, ?_, ?_⟩
  · intro hg
    simp [hg, statusTagStep_metrics, lookupStr_assocSet]
  · intro hg ht
    simp [hg, ht, statusTagStep_metrics]
  · intro hg ht
    simp [hg, ht, statusTagStep_metrics]

/-- Witness for C3, at a concrete sampled 8.x call whose result carries
`took = 0`. -/
theorem took_metric_version_divergence_witness :
    ∃ s, (perform_request wCfg (8, 0, 0) wTransport (.ok (.dict [("took", .int 0)]))
        true "PUT" "/idx" Option.none .none).spans = [s] ∧
      (versionGe8 (8, 0, 0) = true →
        s.metrics = assocSet wSpanPUT.metrics "elasticsearch.took" 0 ∧
        lookupStr s.metrics "elasticsearch.took" = some 0) ∧
      (versionGe8 (8, 0, 0) = false → (0 : Int) = 0 → s.metrics = wSpanPUT.metrics) ∧
      (versionGe8 (8, 0, 0) = false → (0 : Int) ≠ 0 →
        s.metrics = assocSet wSpanPUT.metrics "elasticsearch.took" 0) :=
  took_metric_version_divergence wCfg (8, 0, 0) wTransport
    (.ok (.dict [("took", .int 0)])) "PUT" "/idx" Option.none .none ⟨true⟩ wSpanPUT
    Option.none (.dict [("took", .int 0)]) 0 (.dict [("took", .int 0)])
    rfl rfl rfl rfl rfl rfl

/-- C7: on a traced call whose delegate returns successfully, the
`took`/result-shape extraction never raises: the call returns the original
result unchanged for every result value, and the one span is closed. -/
theorem extraction_soft_fail_returns_result (cfg : ESConfig)
    (version : Nat × Nat × Nat) (inst : Transport) (func : CallResult)
    (method url : String) (paramsKw : Option (List (String × String)))
    (body : PyVal) (p : Pin) (sp : Span) (r : PyVal)
    (hpin : inst.pin = some p) (hen : p.enabled = true)
    (hprep : prepareSpan cfg version inst method url paramsKw body
        ((mkSpan cfg true).setMeasured) = .ok sp)
    (hfunc : func = .ok r) :
    (perform_request cfg version inst func true method url paramsKw body).result =
      .ok r ∧
    ∃ s, (perform_request cfg version inst func true method url paramsKw body).spans =
        [s] ∧ s.finished = true := by
  rw [perform_request_ok_case cfg version inst func method url paramsKw body
    p sp r hpin hen hprep hfunc]
  exact ⟨rfl, _, rfl, rfl⟩

/-- Witness for C7, at a concrete sampled call whose result is a bare
integer — a value with no `.get`, on which the Python extraction step
would raise and be swallowed. -/
theorem extraction_soft_fail_returns_result_witness :
    (perform_request wCfg (8, 0, 0) wTransport (.ok (.int 5)) true
        "PUT" "/idx" Option.none .none).result = .ok (.int 5) ∧
    ∃ s, (perform_request wCfg (8, 0, 0) wTransport (.ok (.int 5)) true
        "PUT" "/idx" Option.none .none).spans = [s] ∧ s.finished = true :=
  extraction_soft_fail_returns_result wCfg (8, 0, 0) wTransport (.ok (.int 5))
    "PUT" "/idx" Option.none .none ⟨true⟩ wSpanPUT (.int 5) rfl rfl rfl rfl

/-- C8: on a traced, sampled, successful call the body tag is present
exactly when the method is GET or POST — in which case it equals the
output of the client's own serializer — and the one span carries the
method and URL tags. -/
theorem body_tag_iff_get_post (cfg : ESConfig) (version : Nat × Nat × Nat)
    (inst : Transport) (func : CallResult) (method url : String)
    (paramsKw : Option (List (String × String))) (body : PyVal) (p : Pin)
    (url2 : String) (params : List (String × String)) (bs : String) (r : PyVal)
    (hpin : inst.pin = some p) (hen : p.enabled = true)
    (hup : urlAndParams version url paramsKw = .ok (url2, params))
    (hser : serializeBody version inst body = .ok bs)
    (hfunc : func = .ok r) :
    ∃ s, (perform_request cfg version inst func true method url paramsKw body).spans =
        [s] ∧
      lookupStr s.tags "elasticsearch.method" = some method ∧
      lookupStr s.tags "elasticsearch.url" = some url2 ∧
      lookupStr s.tags "elasticsearch.body" =
        (if method = "GET" ∨ method = "POST" then some bs else Option.none) := by
  obtain ⟨sp, hprep, hmeth, hurl, hbody⟩ :=
    prepareSpan_lookups cfg version inst method url paramsKw body
      ((mkSpan cfg true).setMeasured) url2 params bs hup hser
  rw [perform_request_ok_case cfg version inst func method url paramsKw body
    p sp r hpin hen hprep hfunc]
  have hb : lookupStr ((mkSpan cfg true).setMeasured).tags "elasticsearch.body" =
      Option.none := rfl
  rw [hb] at hbody
  refine ⟨_, rfl, ?_, ?_, ?_⟩
  · simp only [Span.finish_tags]
    rw [statusTagStep_lookup_ne _ _ _ (by decide), tookStep_snd_tags]
    exact hmeth
  · simp only [Span.finish_tags]
    rw [statusTagStep_lookup_ne _ _ _ (by decide), tookStep_snd_tags]
    exact hurl
  · simp only [Span.finish_tags]
    rw [statusTagStep_lookup_ne _ _ _ (by decide), tookStep_snd_tags]
    exact hbody

/-- Witness for C8, at a concrete sampled `PUT /idx` call: method and URL
tags present, no body tag. -/
theorem body_tag_iff_get_post_witness :
    ∃ s, (perform_request wCfg (8, 0, 0) wTransport (.ok (.int 1)) true
        "PUT" "/idx" Option.none .none).spans = [s] ∧
      lookupStr s.tags "elasticsearch.method" = some "PUT" ∧
      lookupStr s.tags "elasticsearch.url" = some "/idx" ∧
      lookupStr s.tags "elasticsearch.body" =
        (if "PUT" = "GET" ∨ "PUT" = "POST" then some "\x7b\x7d" else Option.none) :=
  body_tag_iff_get_post wCfg (8, 0, 0) wTransport (.ok (.int 1)) "PUT" "/idx"
    Option.none .none ⟨true⟩ "/idx" [] "\x7b\x7d" (.int 1) rfl rfl rfl rfl rfl

/-- C9: on a traced, sampled GET or POST call whose body serialization
raises, the exception propagates to the caller — for every behavior of
the original call, so the traced call aborts before delegation — while
the span is still closed by scoped acquisition. -/
theorem body_serialization_error_propagates (cfg : ESConfig)
    (version : Nat × Nat × Nat) (inst : Transport) (func : CallResult)
    (method url : String) (paramsKw : Option (List (String × String)))
    (body : PyVal) (p : Pin) (url2 : String)
    (params : List (String × String)) (e : Exc)
    (hpin : inst.pin = some p) (hen : p.enabled = true)
    (hm : method = "GET" ∨ method = "POST")
    (hup : urlAndParams version url paramsKw = .ok (url2, params))
    (hser : serializeBody version inst body = .error e) :
    (perform_request cfg version inst func true method url paramsKw body).result =
      .error e ∧
    ∃ s, (perform_request cfg version inst func true method url paramsKw body).spans =
        [s] ∧ s.finished = true := by
  obtain ⟨sp, hprep⟩ :=
    prepareSpan_serialize_error cfg version inst method url paramsKw body
      ((mkSpan cfg true).setMeasured) url2 params e hup hm hser
  rw [perform_request_prep_error cfg version inst func method url paramsKw body
    p e sp hpin hen hprep]
  exact ⟨rfl, _, rfl, rfl⟩

/-- Witness for C9, at a concrete sampled `GET /idx` call with a raising
serializer and a delegate that would succeed: the error still propagates. -/
theorem body_serialization_error_propagates_witness :
    (perform_request wCfg (8, 0, 0) wTransportFail (.ok (.int 7)) true
        "GET" "/idx" Option.none .none).result =
      .error (.serializationError "boom") ∧
    ∃ s, (perform_request wCfg (8, 0, 0) wTransportFail (.ok (.int 7)) true
        "GET" "/idx" Option.none .none).spans = [s] ∧ s.finished = true :=
  body_serialization_error_propagates wCfg (8, 0, 0) wTransportFail (.ok (.int 7))
    "GET" "/idx" Option.none .none ⟨true⟩ "/idx" [] (.serializationError "boom")
    rfl rfl (Or.inl rfl) rfl rfl

end ES
